import Mathlib

/-!
Shallow embedding of the fastify conformance-API server
(`src/conformanceApiPlugin.ts`): the standard error-code table, the
primitive coercions used by the request binders (the host `parseInt` and
`parseFloat` plus the plugin's own `parseBoolean`), the per-endpoint
request binders, and the per-endpoint response shapers.  Request/response
data shapes come from `conformanceApiTypes.ts`, which is imported by the
plugin but not part of the available sources; those records are modelled
from the spec (§3 of the design document) and marked as such.
-/

/-- A JavaScript number as produced by `parseInt`/`parseFloat`: either a
finite value, `NaN`, or a signed infinity.  A finite value is kept in
exact decimal form `mant * 10 ^ exp10` (IEEE rounding of the host double
is not modelled; `parseInt` always yields `exp10 = 0`). -/
inductive JsNumber where
  | nan
  | posInf
  | negInf
  | num (mant : Int) (exp10 : Int)
deriving DecidableEq, Repr

/-- The whitespace characters stripped by the host numeric parsers
(space, tab, line feed, carriage return, vertical tab, form feed). -/
def isJsWhitespace (c : Char) : Bool :=
  c = ' ' || c = '\t' || c = '\n' || c = '\r' || c.toNat = 11 || c.toNat = 12

/-- Value of a digit character in the given radix (10 or 16), as accepted
by the host `parseInt`. -/
def digitValue (radix : Nat) (c : Char) : Option Nat :=
  if '0' ≤ c && c ≤ '9' && (c.toNat - '0'.toNat < radix) then
    some (c.toNat - '0'.toNat)
  else if radix = 16 && 'a' ≤ c && c ≤ 'f' then
    some (c.toNat - 'a'.toNat + 10)
  else if radix = 16 && 'A' ≤ c && c ≤ 'F' then
    some (c.toNat - 'A'.toNat + 10)
  else none

/-- Longest prefix of digit values in the given radix. -/
def takeDigitVals (radix : Nat) : List Char → List Nat
  | [] => []
  | c :: cs =>
    match digitValue radix c with
    | some d => d :: takeDigitVals radix cs
    | none => []

/-- Model of the host `parseInt(string)` with no radix argument: trim
leading whitespace, read an optional sign, switch to hexadecimal on a
`0x`/`0X` prefix, then parse the longest digit prefix; no digits at all
gives `NaN`.  Trailing garbage is ignored. -/
def jsParseInt (s : String) : JsNumber :=
  let cs := (s.toList).dropWhile isJsWhitespace
  let signAndRest : Int × List Char :=
    match cs with
    | '-' :: rest => (-1, rest)
    | '+' :: rest => (1, rest)
    | _ => (1, cs)
  let sign := signAndRest.1
  let radixAndRest : Nat × List Char :=
    match signAndRest.2 with
    | '0' :: 'x' :: rest => (16, rest)
    | '0' :: 'X' :: rest => (16, rest)
    | rest => (10, rest)
  let radix := radixAndRest.1
  let ds := takeDigitVals radix radixAndRest.2
  if ds = [] then JsNumber.nan
  else JsNumber.num (sign * ((ds.foldl (fun a d => a * radix + d) 0 : Nat) : Int)) 0

/-- Decimal digit predicate used by the host `parseFloat`. -/
def isDigit10 (c : Char) : Bool := '0' ≤ c && c ≤ '9'

/-- Numeric value of a list of decimal digit characters. -/
def digitsToNat (ds : List Char) : Nat :=
  ds.foldl (fun a c => a * 10 + (c.toNat - '0'.toNat)) 0

/-- Model of the host `parseFloat(string)`: trim leading whitespace, read
an optional sign, accept an `Infinity` token, otherwise parse the longest
decimal-literal prefix (integer digits, optional fraction, optional
exponent); no digits at all gives `NaN`.  The value is the exact decimal
`sign * (intDigits.fracDigits) * 10 ^ exponent`. -/
def jsParseFloat (s : String) : JsNumber :=
  let cs := (s.toList).dropWhile isJsWhitespace
  let signAndRest : Bool × List Char :=
    match cs with
    | '-' :: rest => (true, rest)
    | '+' :: rest => (false, rest)
    | _ => (false, cs)
  let neg := signAndRest.1
  let cs1 := signAndRest.2
  if ("Infinity".toList).isPrefixOf cs1 then
    if neg then JsNumber.negInf else JsNumber.posInf
  else
    let intPart := cs1.takeWhile isDigit10
    let afterInt := cs1.dropWhile isDigit10
    let fracAndRest : List Char × List Char :=
      match afterInt with
      | '.' :: rest => (rest.takeWhile isDigit10, rest.dropWhile isDigit10)
      | rest => ([], rest)
    let fracPart := fracAndRest.1
    if intPart = [] && fracPart = [] then JsNumber.nan
    else
      let exp : Int :=
        match fracAndRest.2 with
        | e :: rest =>
          if e = 'e' || e = 'E' then
            let enegAndRest : Bool × List Char :=
              match rest with
              | '-' :: r => (true, r)
              | '+' :: r => (false, r)
              | r => (false, r)
            let eds := enegAndRest.2.takeWhile isDigit10
            if eds = [] then 0
            else if enegAndRest.1 then -(digitsToNat eds : Int) else (digitsToNat eds : Int)
          else 0
        | [] => 0
      let mant : Int :=
        (digitsToNat intPart : Int) * (10 : Int) ^ fracPart.length + (digitsToNat fracPart : Int)
      JsNumber.num (if neg then -mant else mant) (exp - fracPart.length)

/-- ASCII lowercasing of one character, modelling the effect of the host
`toLowerCase` on the characters that can make `"true"`/`"false"`. -/
def asciiLowerChar (c : Char) : Char :=
  if 'A' ≤ c && c ≤ 'Z' then Char.ofNat (c.toNat + 32) else c

/-- The plugin's `parseBoolean`: case-insensitive exact match on
`"true"`/`"false"`, anything else (including absence) gives `undefined`
(modelled as `none`). -/
def parseBoolean (value : Option String) : Option Bool :=
  match value with
  | some v =>
    let lowerValue := v.toList.map asciiLowerChar
    if lowerValue = "true".toList then some true
    else if lowerValue = "false".toList then some false
    else none
  | none => none

/-- The `standardErrorCodes` object literal: symbolic error code to HTTP
status, `undefined` (modelled as `none`) for any key not in the object. -/
def standardErrorCodes (code : String) : Option Nat :=
  if code = "NotModified" then some 304
  else if code = "InvalidRequest" then some 400
  else if code = "NotAuthenticated" then some 401
  else if code = "NotAuthorized" then some 403
  else if code = "NotFound" then some 404
  else if code = "Conflict" then some 409
  else if code = "RequestTooLarge" then some 413
  else if code = "TooManyRequests" then some 429
  else if code = "InternalError" then some 500
  else if code = "ServiceUnavailable" then some 503
  else if code = "NotAdmin" then some 403
  else none


/-- Modelled from the spec: the `TypedError` record of
`conformanceApiTypes.ts` (§3): a symbolic `code` and an optional
`message`; the handlers guard `result.error.code`, so the code itself is
optional. -/
structure ApiError where
  code : Option String
  message : Option String
deriving DecidableEq, Repr

/-- Modelled from the spec: `IWidget` of `conformanceApiTypes.ts` — an
opaque entity the core only passes through (§3). -/
structure IWidget where
  payload : String
deriving DecidableEq, Repr

/-- Modelled from the spec: the `getApiInfo` response value, opaque to
the core. -/
structure InfoValue where
  payload : String
deriving DecidableEq, Repr

/-- Modelled from the spec: one per-ID entry of the widget-batch result,
opaque to the core. -/
structure BatchResult where
  payload : String
deriving DecidableEq, Repr

/-- Modelled from the spec: the `mirrorFields` response value, opaque to
the core. -/
structure MirrorValue where
  payload : String
deriving DecidableEq, Repr

/-- Modelled from the spec: the `checkQuery` response value (echo of the
coerced fields), opaque to the core. -/
structure CheckQueryValue where
  payload : String
deriving DecidableEq, Repr

/-- Modelled from the spec: the `checkPath` response value (echo of the
coerced fields), opaque to the core. -/
structure CheckPathValue where
  payload : String
deriving DecidableEq, Repr

/-- Modelled from the spec: the discriminated service result
`{ error?: TypedError, value?: V }` returned by every API Service
method (§3). -/
structure ApiResult (V : Type) where
  error : Option ApiError
  value : Option V
deriving DecidableEq, Repr

/-- Modelled from the spec: the `getWidgets` value, read as
`result.value.widgets` by the handler (the field itself is optional). -/
structure GetWidgetsValue where
  widgets : Option (List IWidget)
deriving DecidableEq, Repr

/-- Modelled from the spec: the `createWidget` value with optional `url`,
`eTag` and `widget` sub-fields, read by the handler. -/
structure CreateWidgetValue where
  url : Option String
  eTag : Option String
  widget : Option IWidget
deriving DecidableEq, Repr

/-- Modelled from the spec: the `getWidget` value
`{ widget?, eTag?, notModified? }` (§3). -/
structure GetWidgetValue where
  widget : Option IWidget
  eTag : Option String
  notModified : Option Bool
deriving DecidableEq, Repr

/-- Modelled from the spec: the `deleteWidget` value with optional
`notFound` and `conflict` flags, read by the handler. -/
structure DeleteWidgetValue where
  notFound : Option Bool
  conflict : Option Bool
deriving DecidableEq, Repr

/-- Modelled from the spec: the `getWidgetBatch` value, read as
`result.value.results` by the handler. -/
structure BatchValue where
  results : Option (List BatchResult)
deriving DecidableEq, Repr

/-- A raw string-keyed JS record (query object, path params, headers):
an absent key is `undefined`, modelled as `none`. -/
abbrev RawMap := String → Option String

/-- `IGetWidgetsRequest` as populated by the binder: the optional
free-text query. -/
structure IGetWidgetsRequest where
  query : Option String
deriving DecidableEq, Repr

/-- `IGetWidgetRequest` as populated by the binder: the path-bound `id`
(a JS number once assigned, possibly `NaN`) and the `If-None-Match`
header. -/
structure IGetWidgetRequest where
  id : Option JsNumber
  ifNotETag : Option String
deriving DecidableEq, Repr

/-- `IDeleteWidgetRequest` as populated by the binder: the path-bound
`id` and the `If-Match` header. -/
structure IDeleteWidgetRequest where
  id : Option JsNumber
  ifETag : Option String
deriving DecidableEq, Repr

/-- `ICheckQueryRequest` as populated by the binder: the eight typed
optional fields. -/
structure ICheckQueryRequest where
  string : Option String
  boolean : Option Bool
  double : Option JsNumber
  int32 : Option JsNumber
  int64 : Option JsNumber
  decimal : Option JsNumber
  enum : Option String
  datetime : Option String
deriving DecidableEq, Repr

/-- `ICheckPathRequest` as populated by the binder: same field shapes as
`ICheckQueryRequest`. -/
structure ICheckPathRequest where
  string : Option String
  boolean : Option Bool
  double : Option JsNumber
  int32 : Option JsNumber
  int64 : Option JsNumber
  decimal : Option JsNumber
  enum : Option String
  datetime : Option String
deriving DecidableEq, Repr

/-- Binder of `GET /widgets`: `if (typeof query["q"] === "string")
request.query = query["q"]`. -/
def bindGetWidgets (query : RawMap) : IGetWidgetsRequest :=
  { query :=
      match query "q" with
      | some s => some s
      | none => none }

/-- Binder of `GET /widgets/:id`: `request.id = parseInt(params.id)`
under the `typeof` guard, and `request.ifNotETag =
req.headers["if-none-match"]` (assigned unconditionally; assigning
`undefined` is modelled as the field staying `none`). -/
def bindGetWidget (params : RawMap) (headers : RawMap) : IGetWidgetRequest :=
  { id :=
      match params "id" with
      | some s => some (jsParseInt s)
      | none => none
    ifNotETag := headers "if-none-match" }

/-- Binder of `DELETE /widgets/:id`: `request.id = parseInt(params.id)`
under the `typeof` guard, and `request.ifETag =
req.headers["if-match"]`. -/
def bindDeleteWidget (params : RawMap) (headers : RawMap) : IDeleteWidgetRequest :=
  { id :=
      match params "id" with
      | some s => some (jsParseInt s)
      | none => none
    ifETag := headers "if-match" }

/-- Binder of `GET /checkQuery`: each field is assigned under a
`typeof query[k] === "string"` guard; `boolean` through `parseBoolean`
(whose `undefined` result is modelled as the field staying `none`),
`double`/`decimal` through `parseFloat`, `int32`/`int64` through
`parseInt`, and `string`/`enum`/`datetime` verbatim. -/
def bindCheckQuery (query : RawMap) : ICheckQueryRequest :=
  { string :=
      match query "string" with
      | some s => some s
      | none => none
    boolean :=
      match query "boolean" with
      | some s => parseBoolean (some s)
      | none => none
    double :=
      match query "double" with
      | some s => some (jsParseFloat s)
      | none => none
    int32 :=
      match query "int32" with
      | some s => some (jsParseInt s)
      | none => none
    int64 :=
      match query "int64" with
      | some s => some (jsParseInt s)
      | none => none
    decimal :=
      match query "decimal" with
      | some s => some (jsParseFloat s)
      | none => none
    enum :=
      match query "enum" with
      | some s => some s
      | none => none
    datetime :=
      match query "datetime" with
      | some s => some s
      | none => none }

/-- Binder of `GET /checkPath/...`: identical guards and coercions to the
query binder, reading `req.params` instead of `req.query`. -/
def bindCheckPath (params : RawMap) : ICheckPathRequest :=
  { string :=
      match params "string" with
      | some s => some s
      | none => none
    boolean :=
      match params "boolean" with
      | some s => parseBoolean (some s)
      | none => none
    double :=
      match params "double" with
      | some s => some (jsParseFloat s)
      | none => none
    int32 :=
      match params "int32" with
      | some s => some (jsParseInt s)
      | none => none
    int64 :=
      match params "int64" with
      | some s => some (jsParseInt s)
      | none => none
    decimal :=
      match params "decimal" with
      | some s => some (jsParseFloat s)
      | none => none
    enum :=
      match params "enum" with
      | some s => some s
      | none => none
    datetime :=
      match params "datetime" with
      | some s => some s
      | none => none }

/-- The body payloads the handlers can `send`. -/
inductive Body where
  | err (e : ApiError)
  | info (v : InfoValue)
  | widgetList (widgets : Option (List IWidget))
  | widget (w : IWidget)
  | emptyObj
  | results (rs : List BatchResult)
  | mirror (v : MirrorValue)
  | queryEcho (v : CheckQueryValue)
  | pathEcho (v : CheckPathValue)
deriving DecidableEq, Repr

/-- The reply state a handler builds: the status set by `reply.status`
(`none` when never set), the headers set by `reply.header` in order, and
the payload passed to `reply.send` (`none` when never sent). -/
structure Reply where
  status : Option Nat := none
  headers : List (String × String) := []
  body : Option Body := none
deriving DecidableEq, Repr

/-- How a handler finishes: a normal return, or a thrown `Error`. -/
inductive Outcome where
  | completed
  | fatalError (msg : String)
deriving DecidableEq, Repr

/-- The status expression repeated in every handler:
`result.error.code && standardErrorCodes[result.error.code]` followed by
`reply.status(status || 500)`.  A missing or empty (falsy) code, or a
code that is not a key of the table, falls back to 500; every table value
is a nonzero (truthy) number, so `||` keeps it. -/
def errorStatusOf (e : ApiError) : Nat :=
  match e.code with
  | none => 500
  | some c => if c = "" then 500 else (standardErrorCodes c).getD 500

/-- The reply built by the error branch of every handler:
`reply.status(status || 500).send(result.error)`. -/
def errorReply (e : ApiError) : Reply :=
  { status := some (errorStatusOf e), headers := [], body := some (Body.err e) }

/-- The message of the `Error` thrown by the handlers when the result
matches neither branch. -/
def fatalMsg : String := "Result must have an error or value."

/-- Handler of `GET /` after the service call: error branch, else `send`
the value with no explicit status, else fall off the end of the handler
(no throw in this handler). -/
def shapeGetApiInfo (result : ApiResult InfoValue) : Reply × Outcome :=
  match result.error with
  | some e => (errorReply e, Outcome.completed)
  | none =>
    match result.value with
    | some v => ({ body := some (Body.info v) }, Outcome.completed)
    | none => ({}, Outcome.completed)

/-- Handler of `GET /widgets` after the service call: error branch
returns; the value branch sends `200` with `{ widgets }` but does not
return, so the handler falls through to the `throw` in both remaining
cases. -/
def shapeGetWidgets (result : ApiResult GetWidgetsValue) : Reply × Outcome :=
  match result.error with
  | some e => (errorReply e, Outcome.completed)
  | none =>
    let sent : Reply :=
      match result.value with
      | some v => { status := some 200, body := some (Body.widgetList v.widgets) }
      | none => {}
    (sent, Outcome.fatalError fatalMsg)

/-- Handler of `POST /widgets` after the service call: error branch; in
the value branch `url` sets the `Location` header, `eTag` sets the `eTag`
header, and only a set `widget` triggers `status(201).send(widget)`
before the branch returns; an empty result throws. -/
def shapeCreateWidget (result : ApiResult CreateWidgetValue) : Reply × Outcome :=
  match result.error with
  | some e => (errorReply e, Outcome.completed)
  | none =>
    match result.value with
    | some v =>
      let r0 : Reply := {}
      let r1 : Reply :=
        match v.url with
        | some u => { r0 with headers := r0.headers ++ [("Location", u)] }
        | none => r0
      let r2 : Reply :=
        match v.eTag with
        | some t => { r1 with headers := r1.headers ++ [("eTag", t)] }
        | none => r1
      let r3 : Reply :=
        match v.widget with
        | some w => { r2 with status := some 201, body := some (Body.widget w) }
        | none => r2
      (r3, Outcome.completed)
    | none => ({}, Outcome.fatalError fatalMsg)

/-- Handler of `GET /widgets/:id` after the service call: error branch;
in the value branch a set `eTag` adds the `eTag` header, then a set
`widget` sends `200` with the widget and returns, else a truthy
`notModified` sets status `304` and returns; otherwise control reaches
the `throw`. -/
def shapeGetWidget (result : ApiResult GetWidgetValue) : Reply × Outcome :=
  match result.error with
  | some e => (errorReply e, Outcome.completed)
  | none =>
    match result.value with
    | some v =>
      let r0 : Reply := {}
      let r1 : Reply :=
        match v.eTag with
        | some t => { r0 with headers := r0.headers ++ [("eTag", t)] }
        | none => r0
      match v.widget with
      | some w => ({ r1 with status := some 200, body := some (Body.widget w) }, Outcome.completed)
      | none =>
        if v.notModified.getD false then
          ({ r1 with status := some 304 }, Outcome.completed)
        else (r1, Outcome.fatalError fatalMsg)
    | none => ({}, Outcome.fatalError fatalMsg)

/-- Handler of `DELETE /widgets/:id` after the service call: error
branch; in the value branch a truthy `notFound` sets `404` and returns,
else a truthy `conflict` sets `409` and returns, else
`status(204).send({})`; an empty result throws. -/
def shapeDeleteWidget (result : ApiResult DeleteWidgetValue) : Reply × Outcome :=
  match result.error with
  | some e => (errorReply e, Outcome.completed)
  | none =>
    match result.value with
    | some v =>
      if v.notFound.getD false then
        ({ status := some 404 }, Outcome.completed)
      else if v.conflict.getD false then
        ({ status := some 409 }, Outcome.completed)
      else
        ({ status := some 204, body := some Body.emptyObj }, Outcome.completed)
    | none => ({}, Outcome.fatalError fatalMsg)

/-- Handler of `POST /widgets/get` after the service call: error branch;
the value branch sends `200` with `results` only when that sub-field is
set (an empty array is still truthy, hence still sent); otherwise control
reaches the `throw`. -/
def shapeGetWidgetBatch (result : ApiResult BatchValue) : Reply × Outcome :=
  match result.error with
  | some e => (errorReply e, Outcome.completed)
  | none =>
    match result.value with
    | some v =>
      match v.results with
      | some rs => ({ status := some 200, body := some (Body.results rs) }, Outcome.completed)
      | none => ({}, Outcome.fatalError fatalMsg)
    | none => ({}, Outcome.fatalError fatalMsg)

/-- Handler of `POST /mirrorFields` after the service call: error branch;
the value branch sends `200` with the value and returns; an empty result
throws. -/
def shapeMirrorFields (result : ApiResult MirrorValue) : Reply × Outcome :=
  match result.error with
  | some e => (errorReply e, Outcome.completed)
  | none =>
    match result.value with
    | some v => ({ status := some 200, body := some (Body.mirror v) }, Outcome.completed)
    | none => ({}, Outcome.fatalError fatalMsg)

/-- Handler of `GET /checkQuery` after the service call: error branch
returns; the value branch sends `200` with the value but does not return,
so the handler falls through to the `throw` in both remaining cases. -/
def shapeCheckQuery (result : ApiResult CheckQueryValue) : Reply × Outcome :=
  match result.error with
  | some e => (errorReply e, Outcome.completed)
  | none =>
    let sent : Reply :=
      match result.value with
      | some v => { status := some 200, body := some (Body.queryEcho v) }
      | none => {}
    (sent, Outcome.fatalError fatalMsg)

/-- Handler of `GET /checkPath/...` after the service call: error branch
returns; the value branch sends `200` with the value but does not return,
so the handler falls through to the `throw` in both remaining cases. -/
def shapeCheckPath (result : ApiResult CheckPathValue) : Reply × Outcome :=
  match result.error with
  | some e => (errorReply e, Outcome.completed)
  | none =>
    let sent : Reply :=
      match result.value with
      | some v => { status := some 200, body := some (Body.pathEcho v) }
      | none => {}
    (sent, Outcome.fatalError fatalMsg)

/-- C1: for every endpoint, when the service result has the error arm
populated the handler replies with the fixed table status for the
symbolic error code (NotModified→304, InvalidRequest→400,
NotAuthenticated→401, NotAuthorized→403, NotFound→404, Conflict→409,
RequestTooLarge→413, TooManyRequests→429, InternalError→500,
ServiceUnavailable→503, NotAdmin→403), with 500 for any code not in the
table or a missing code, and the body is the serialized error object. -/
theorem claim_C1 :
    ((∀ (e : ApiError) (vo : Option InfoValue),
        shapeGetApiInfo ⟨some e, vo⟩ = (errorReply e, Outcome.completed)) ∧
      (∀ (e : ApiError) (vo : Option GetWidgetsValue),
        shapeGetWidgets ⟨some e, vo⟩ = (errorReply e, Outcome.completed)) ∧
      (∀ (e : ApiError) (vo : Option CreateWidgetValue),
        shapeCreateWidget ⟨some e, vo⟩ = (errorReply e, Outcome.completed)) ∧
      (∀ (e : ApiError) (vo : Option GetWidgetValue),
        shapeGetWidget ⟨some e, vo⟩ = (errorReply e, Outcome.completed)) ∧
      (∀ (e : ApiError) (vo : Option DeleteWidgetValue),
        shapeDeleteWidget ⟨some e, vo⟩ = (errorReply e, Outcome.completed)) ∧
      (∀ (e : ApiError) (vo : Option BatchValue),
        shapeGetWidgetBatch ⟨some e, vo⟩ = (errorReply e, Outcome.completed)) ∧
      (∀ (e : ApiError) (vo : Option MirrorValue),
        shapeMirrorFields ⟨some e, vo⟩ = (errorReply e, Outcome.completed)) ∧
      (∀ (e : ApiError) (vo : Option CheckQueryValue),
        shapeCheckQuery ⟨some e, vo⟩ = (errorReply e, Outcome.completed)) ∧
      (∀ (e : ApiError) (vo : Option CheckPathValue),
        shapeCheckPath ⟨some e, vo⟩ = (errorReply e, Outcome.completed))) ∧
    (∀ (e : ApiError),
      (errorReply e).status = some (errorStatusOf e) ∧
        (errorReply e).body = some (Body.err e)) ∧
    ((∀ m, errorStatusOf ⟨some "NotModified", m⟩ = 304) ∧
      (∀ m, errorStatusOf ⟨some "InvalidRequest", m⟩ = 400) ∧
      (∀ m, errorStatusOf ⟨some "NotAuthenticated", m⟩ = 401) ∧
      (∀ m, errorStatusOf ⟨some "NotAuthorized", m⟩ = 403) ∧
      (∀ m, errorStatusOf ⟨some "NotFound", m⟩ = 404) ∧
      (∀ m, errorStatusOf ⟨some "Conflict", m⟩ = 409) ∧
      (∀ m, errorStatusOf ⟨some "RequestTooLarge", m⟩ = 413) ∧
      (∀ m, errorStatusOf ⟨some "TooManyRequests", m⟩ = 429) ∧
      (∀ m, errorStatusOf ⟨some "InternalError", m⟩ = 500) ∧
      (∀ m, errorStatusOf ⟨some "ServiceUnavailable", m⟩ = 503) ∧
      (∀ m, errorStatusOf ⟨some "NotAdmin", m⟩ = 403)) ∧
    (∀ (c : String),
      c ∉ ["NotModified", "InvalidRequest", "NotAuthenticated", "NotAuthorized",
        "NotFound", "Conflict", "RequestTooLarge", "TooManyRequests", "InternalError",
        "ServiceUnavailable", "NotAdmin"] →
      ∀ m, errorStatusOf ⟨some c, m⟩ = 500) ∧
    (∀ m, errorStatusOf ⟨none, m⟩ = 500) := by
  refine ⟨⟨?_, ?_, ?_, ?_, ?_, ?_, ?_, ?_, ?_⟩, ?_, ?_, ?_, ?_⟩
  · intro e vo; rfl
  · intro e vo; rfl
  · intro e vo; rfl
  · intro e vo; rfl
  · intro e vo; rfl
  · intro e vo; rfl
  · intro e vo; rfl
  · intro e vo; rfl
  · intro e vo; rfl
  · intro e; exact ⟨rfl, rfl⟩
  · exact ⟨fun m => rfl, fun m => rfl, fun m => rfl, fun m => rfl, fun m => rfl,
      fun m => rfl, fun m => rfl, fun m => rfl, fun m => rfl, fun m => rfl, fun m => rfl⟩
  · intro c hc m
    simp only [List.mem_cons, List.not_mem_nil, or_false, not_or] at hc
    obtain ⟨h1, h2, h3, h4, h5, h6, h7, h8, h9, h10, h11⟩ := hc
    rcases eq_or_ne c "" with he | he
    · simp [errorStatusOf, he]
    · simp [errorStatusOf, standardErrorCodes, he, h1, h2, h3, h4, h5, h6, h7, h8, h9, h10, h11]
  · intro m; rfl

/-- Witness for C1: a concrete unknown code maps to 500, and a concrete
populated error on the info endpoint yields the table status and the
error body. -/
theorem claim_C1_witness :
    errorStatusOf ⟨some "Bogus", none⟩ = 500 ∧
      shapeGetApiInfo ⟨some ⟨some "NotFound", some "missing"⟩, none⟩ =
        (errorReply ⟨some "NotFound", some "missing"⟩, Outcome.completed) :=
  ⟨claim_C1.2.2.2.1 "Bogus" (by decide) none,
    claim_C1.1.1 ⟨some "NotFound", some "missing"⟩ none⟩

/-- C2 counterexample: on `GET /` a result with neither arm populated
makes the handler fall off the end — it completes normally with no throw,
no status, and no body, instead of raising the fatal error. -/
theorem claim_C2_counterexample :
    shapeGetApiInfo ⟨none, none⟩ = (({} : Reply), Outcome.completed) ∧
      (shapeGetApiInfo ⟨none, none⟩).2 ≠ Outcome.fatalError fatalMsg :=
  ⟨rfl, by decide⟩

/-- C2 (amended): on every endpoint except `GET /`, a result with neither
arm populated raises the fatal contract-violation error with nothing
sent; on `GET /` the handler completes silently with no status, headers,
or body (never a 200). -/
theorem claim_C2_amended :
    shapeGetApiInfo ⟨none, none⟩ = (({} : Reply), Outcome.completed) ∧
      shapeGetWidgets ⟨none, none⟩ = (({} : Reply), Outcome.fatalError fatalMsg) ∧
      shapeCreateWidget ⟨none, none⟩ = (({} : Reply), Outcome.fatalError fatalMsg) ∧
      shapeGetWidget ⟨none, none⟩ = (({} : Reply), Outcome.fatalError fatalMsg) ∧
      shapeDeleteWidget ⟨none, none⟩ = (({} : Reply), Outcome.fatalError fatalMsg) ∧
      shapeGetWidgetBatch ⟨none, none⟩ = (({} : Reply), Outcome.fatalError fatalMsg) ∧
      shapeMirrorFields ⟨none, none⟩ = (({} : Reply), Outcome.fatalError fatalMsg) ∧
      shapeCheckQuery ⟨none, none⟩ = (({} : Reply), Outcome.fatalError fatalMsg) ∧
      shapeCheckPath ⟨none, none⟩ = (({} : Reply), Outcome.fatalError fatalMsg) :=
  ⟨rfl, rfl, rfl, rfl, rfl, rfl, rfl, rfl, rfl⟩

/-- C3 counterexample: on `POST /widgets` a populated value whose
`widget` sub-field is unset makes the handler return with no status ever
set and no body sent — it does not resolve to a concrete HTTP
response. -/
theorem claim_C3_counterexample :
    shapeCreateWidget ⟨none, some ⟨none, none, none⟩⟩ = (({} : Reply), Outcome.completed) ∧
      (shapeCreateWidget ⟨none, some ⟨none, none, none⟩⟩).1.status = none :=
  ⟨rfl, rfl⟩

/-- C3 (amended): on `POST /widgets` with the value arm populated, `url`
puts the `Location` header, `eTag` puts the `eTag` header, and a set
`widget` yields status 201 with the widget body; when `widget` is unset
the handler completes normally without setting any status or sending any
body. -/
theorem claim_C3_amended (v : CreateWidgetValue) :
    shapeCreateWidget ⟨none, some v⟩ =
      ({ status := match v.widget with | some _ => some 201 | none => none,
         headers :=
           (match v.url with | some u => [("Location", u)] | none => []) ++
             (match v.eTag with | some t => [("eTag", t)] | none => []),
         body := v.widget.map Body.widget },
        Outcome.completed) := by
  obtain ⟨u, t, w⟩ := v
  cases u <;> cases t <;> cases w <;> rfl

/-- C5: the `GET /widgets`, `GET /checkQuery` and `GET /checkPath`
handlers, on a populated value arm, send the 200 response with the
specified body but then still reach the fatal contract-violation throw
(the value branch does not return), contradicting the claim that the
fatal error is raised only when neither branch matches. -/
theorem claim_C5 :
    shapeGetWidgets ⟨none, some ⟨some []⟩⟩ =
        ({ status := some 200, headers := [], body := some (Body.widgetList (some [])) },
          Outcome.fatalError fatalMsg) ∧
      shapeCheckQuery ⟨none, some ⟨"echo"⟩⟩ =
        ({ status := some 200, headers := [], body := some (Body.queryEcho ⟨"echo"⟩) },
          Outcome.fatalError fatalMsg) ∧
      shapeCheckPath ⟨none, some ⟨"echo"⟩⟩ =
        ({ status := some 200, headers := [], body := some (Body.pathEcho ⟨"echo"⟩) },
          Outcome.fatalError fatalMsg) ∧
      fatalMsg = "Result must have an error or value." :=
  ⟨rfl, rfl, rfl, rfl⟩

/-- C4 counterexample: a non-numeric `:id` segment does not leave the
typed field unset — `parseInt` yields `NaN` and the field is set to
it. -/
theorem claim_C4_counterexample :
    (bindGetWidget (fun k => if k = "id" then some "abc" else none) (fun _ => none)).id =
        some JsNumber.nan ∧
      (bindGetWidget (fun k => if k = "id" then some "abc" else none) (fun _ => none)).id ≠
        none := by
  refine ⟨?_, ?_⟩ <;> decide

/-- C4 (amended): for every path-bound numeric field, a raw segment that
fails to parse sets the typed field to `NaN` rather than leaving it
unset; the request is still never rejected (binding is total) and
validation is left to the API Service. -/
theorem claim_C4_amended :
    (∀ (params headers : RawMap) (s : String), params "id" = some s →
        jsParseInt s = JsNumber.nan →
        (bindGetWidget params headers).id = some JsNumber.nan) ∧
      (∀ (params headers : RawMap) (s : String), params "id" = some s →
        jsParseInt s = JsNumber.nan →
        (bindDeleteWidget params headers).id = some JsNumber.nan) ∧
      (∀ (params : RawMap) (s : String), params "int32" = some s →
        jsParseInt s = JsNumber.nan →
        (bindCheckPath params).int32 = some JsNumber.nan) ∧
      (∀ (params : RawMap) (s : String), params "int64" = some s →
        jsParseInt s = JsNumber.nan →
        (bindCheckPath params).int64 = some JsNumber.nan) ∧
      (∀ (params : RawMap) (s : String), params "double" = some s →
        jsParseFloat s = JsNumber.nan →
        (bindCheckPath params).double = some JsNumber.nan) ∧
      (∀ (params : RawMap) (s : String), params "decimal" = some s →
        jsParseFloat s = JsNumber.nan →
        (bindCheckPath params).decimal = some JsNumber.nan) := by
  refine ⟨?_, ?_, ?_, ?_, ?_, ?_⟩ <;>
    · intro params
      intros
      simp only [bindGetWidget, bindDeleteWidget, bindCheckPath, *]

/-- Witness for C4 (amended): concrete malformed segments produce `NaN`
fields on `GET /widgets/:id` and on the `int32` segment of
`GET /checkPath`. -/
theorem claim_C4_witness :
    (bindGetWidget (fun k => if k = "id" then some "seven" else none) (fun _ => none)).id =
        some JsNumber.nan ∧
      (bindCheckPath (fun _ => some "xyz")).int32 = some JsNumber.nan := by
  refine ⟨?_, ?_⟩
  · exact claim_C4_amended.1 _ _ "seven" (by decide) (by decide)
  · exact claim_C4_amended.2.2.1 _ "xyz" rfl (by decide)

/-- C6: on `GET /widgets/:id` with the value arm populated, the
sub-fields are inspected in fixed priority order: a set `eTag` puts the
`eTag` response header; a set `widget` yields 200 with the widget body
(regardless of `notModified`); with `widget` unset, a true `notModified`
yields 304 with no body — so an `If-None-Match` hit surfaces as 304 with
empty body. -/
theorem claim_C6 (v : GetWidgetValue) :
    (∀ t, v.eTag = some t →
        (shapeGetWidget ⟨none, some v⟩).1.headers = [("eTag", t)]) ∧
      (v.eTag = none → (shapeGetWidget ⟨none, some v⟩).1.headers = []) ∧
      (∀ w, v.widget = some w →
        (shapeGetWidget ⟨none, some v⟩).1.status = some 200 ∧
          (shapeGetWidget ⟨none, some v⟩).1.body = some (Body.widget w) ∧
          (shapeGetWidget ⟨none, some v⟩).2 = Outcome.completed) ∧
      (v.widget = none → v.notModified = some true →
        (shapeGetWidget ⟨none, some v⟩).1.status = some 304 ∧
          (shapeGetWidget ⟨none, some v⟩).1.body = none ∧
          (shapeGetWidget ⟨none, some v⟩).2 = Outcome.completed) := by
  obtain ⟨w, t, nm⟩ := v
  refine ⟨?_, ?_, ?_, ?_⟩
  · intro t' ht
    subst ht
    cases w with
    | some w' => rfl
    | none => cases h : nm.getD false <;> simp [shapeGetWidget, h]
  · intro ht
    subst ht
    cases w with
    | some w' => rfl
    | none => cases h : nm.getD false <;> simp [shapeGetWidget, h]
  · intro w' hw
    subst hw
    cases t <;> exact ⟨rfl, rfl, rfl⟩
  · intro hw hnm
    subst hw
    subst hnm
    cases t <;> exact ⟨rfl, rfl, rfl⟩

/-- Witness for C6: a not-modified result with an `eTag` yields the
header, a 304 status, and an empty body. -/
theorem claim_C6_witness :
    (shapeGetWidget ⟨none, some ⟨none, some "v1", some true⟩⟩).1.headers = [("eTag", "v1")] ∧
      (shapeGetWidget ⟨none, some ⟨none, some "v1", some true⟩⟩).1.status = some 304 ∧
      (shapeGetWidget ⟨none, some ⟨none, some "v1", some true⟩⟩).1.body = none :=
  ⟨(claim_C6 ⟨none, some "v1", some true⟩).1 "v1" rfl,
    ((claim_C6 ⟨none, some "v1", some true⟩).2.2.2 rfl rfl).1,
    ((claim_C6 ⟨none, some "v1", some true⟩).2.2.2 rfl rfl).2.1⟩

/-- C7: on `DELETE /widgets/:id` with the value arm populated, `notFound`
is checked first and yields 404 (even when `conflict` is also set), else
a true `conflict` yields 409, else the reply is 204 with the empty-object
body. -/
theorem claim_C7 (v : DeleteWidgetValue) :
    shapeDeleteWidget ⟨none, some v⟩ =
      (if v.notFound.getD false then (({ status := some 404 } : Reply), Outcome.completed)
        else if v.conflict.getD false then (({ status := some 409 } : Reply), Outcome.completed)
        else (({ status := some 204, body := some Body.emptyObj } : Reply), Outcome.completed)) := by
  obtain ⟨nf, cf⟩ := v
  by_cases h1 : nf.getD false <;> by_cases h2 : cf.getD false <;>
    simp [shapeDeleteWidget, h1, h2]

/-- C8 counterexample: an empty-string query parameter does not leave
the field unset — `GET /widgets?q=` sets `request.query` to `""`, and
`GET /checkQuery?string=` sets `request.string` to `""`. -/
theorem claim_C8_counterexample :
    (bindGetWidgets (fun k => if k = "q" then some "" else none)).query = some "" ∧
      (bindGetWidgets (fun k => if k = "q" then some "" else none)).query ≠ none ∧
      (bindCheckQuery (fun k => if k = "string" then some "" else none)).string = some "" := by
  refine ⟨?_, ?_, ?_⟩ <;> decide

/-- C8 (amended): every query-bound field is coerced and set whenever the
named parameter is present — including when it is the empty string — and
left unset exactly when the parameter is absent; the `boolean` field
additionally collapses to unset whenever `parseBoolean` fails. -/
theorem claim_C8_amended (query : RawMap) :
    (bindGetWidgets query).query = query "q" ∧
      (bindCheckQuery query).string = query "string" ∧
      (bindCheckQuery query).boolean =
        (match query "boolean" with
          | some s => parseBoolean (some s)
          | none => none) ∧
      (bindCheckQuery query).double = (query "double").map jsParseFloat ∧
      (bindCheckQuery query).int32 = (query "int32").map jsParseInt ∧
      (bindCheckQuery query).int64 = (query "int64").map jsParseInt ∧
      (bindCheckQuery query).decimal = (query "decimal").map jsParseFloat ∧
      (bindCheckQuery query).enum = query "enum" ∧
      (bindCheckQuery query).datetime = query "datetime" := by
  refine ⟨?_, ?_, ?_, ?_, ?_, ?_, ?_, ?_, ?_⟩
  · cases h : query "q" <;> simp [bindGetWidgets, h]
  · cases h : query "string" <;> simp [bindCheckQuery, h]
  · cases h : query "boolean" <;> simp [bindCheckQuery, h]
  · cases h : query "double" <;> simp [bindCheckQuery, h]
  · cases h : query "int32" <;> simp [bindCheckQuery, h]
  · cases h : query "int64" <;> simp [bindCheckQuery, h]
  · cases h : query "decimal" <;> simp [bindCheckQuery, h]
  · cases h : query "enum" <;> simp [bindCheckQuery, h]
  · cases h : query "datetime" <;> simp [bindCheckQuery, h]

/-- C9: for every raw input, the `GET /checkPath` binder produces, field
by field, exactly the value the `GET /checkQuery` binder produces from
the parameter of the same name — the two binding styles share the same
coercion for each of the eight primitive kinds. -/
theorem claim_C9 (raw : RawMap) :
    (bindCheckPath raw).string = (bindCheckQuery raw).string ∧
      (bindCheckPath raw).boolean = (bindCheckQuery raw).boolean ∧
      (bindCheckPath raw).double = (bindCheckQuery raw).double ∧
      (bindCheckPath raw).int32 = (bindCheckQuery raw).int32 ∧
      (bindCheckPath raw).int64 = (bindCheckQuery raw).int64 ∧
      (bindCheckPath raw).decimal = (bindCheckQuery raw).decimal ∧
      (bindCheckPath raw).enum = (bindCheckQuery raw).enum ∧
      (bindCheckPath raw).datetime = (bindCheckQuery raw).datetime :=
  ⟨rfl, rfl, rfl, rfl, rfl, rfl, rfl, rfl⟩

/-- C10: the `int32` and `int64` bindings apply the identical base-10
prefix parse (`parseInt`) in both binders; no 32-bit range check is
applied, so a numeric string outside the 32-bit range is forwarded
unchanged. -/
theorem claim_C10 :
    (∀ (raw : RawMap),
        (bindCheckQuery raw).int32 = (raw "int32").map jsParseInt ∧
          (bindCheckQuery raw).int64 = (raw "int64").map jsParseInt ∧
          (bindCheckPath raw).int32 = (raw "int32").map jsParseInt ∧
          (bindCheckPath raw).int64 = (raw "int64").map jsParseInt) ∧
      (∀ s : String,
        (bindCheckQuery (fun _ => some s)).int32 = (bindCheckQuery (fun _ => some s)).int64) ∧
      jsParseInt "3000000000" = JsNumber.num 3000000000 0 ∧
      ((2 : Int) ^ 31 - 1 < 3000000000) ∧
      (bindCheckPath (fun _ => some "3000000000")).int32 = some (JsNumber.num 3000000000 0) := by
  refine ⟨?_, ?_, ?_, ?_, ?_⟩
  · intro raw
    refine ⟨?_, ?_, ?_, ?_⟩
    · cases h : raw "int32" <;> simp [bindCheckQuery, h]
    · cases h : raw "int64" <;> simp [bindCheckQuery, h]
    · cases h : raw "int32" <;> simp [bindCheckPath, h]
    · cases h : raw "int64" <;> simp [bindCheckPath, h]
  · intro s; rfl
  · decide
  · decide
  · decide
